import Mathlib

/-!
Verification of the QA prediction post-processing layer of FARM
(`farm/modeling/predictions.py`): the `QACandidate` data model
(span resolution, classification override, document-level promotion,
answer-text setting) and the `QAPred` aggregate (JSON serialization and
context windowing).

Modelling conventions:
  * Texts are Lean `String`s; Python slicing `s[a:b]` (with its clamping
    of out-of-range indices and interpretation of negative indices) is
    `pySlice`, Python list indexing (with negative wraparound and
    `IndexError` modelled as `none`) is `pyIdx`, and Python `str.strip()`
    is `pyStrip`.
  * Python `int(x / 2)` truncates toward zero, which is `Int.tdiv _ 2`.
  * Numeric score / probability / no-answer-gap values are never computed
    with by this code, only passed through, so they are modelled as `Int`.
  * A failed `assert` or an uncaught `IndexError` makes the fallible
    operations return `none`; logging calls are modelled as a returned
    Boolean flag where a claim mentions them.
-/

/-- Python list indexing `l[i]`: a negative index counts from the end,
an index out of range raises `IndexError` (modelled as `none`). -/
def pyIdx (l : List Int) (i : Int) : Option Int :=
  let j : Int := if i < 0 then i + l.length else i
  if 0 ≤ j ∧ j < l.length then some (l.getD j.toNat 0) else none

/-- Normalisation of one endpoint of a Python slice against length `n`:
negative endpoints count from the end, then the result is clamped to `[0, n]`. -/
def pyClamp (i : Int) (n : Nat) : Nat :=
  if i < 0 then (i + n).toNat else min i.toNat n

/-- Python slice `l[a:b]` on a list. -/
def pySliceList {α : Type} (l : List α) (a b : Int) : List α :=
  let a' := pyClamp a l.length
  let b' := pyClamp b l.length
  (l.drop a').take (b' - a')

/-- Python slice `s[a:b]` on a string. -/
def pySlice (s : String) (a b : Int) : String :=
  String.mk (pySliceList s.data a b)

/-- The whitespace characters removed by Python `str.strip()`
(the ASCII ones; exotic Unicode whitespace does not occur here). -/
def isPySpace (c : Char) : Bool :=
  c == ' ' || c == '\t' || c == '\n' || c == '\r' ||
  c == Char.ofNat 11 || c == Char.ofNat 12

/-- Python `str.strip()` on the character list. -/
def pyStripList (l : List Char) : List Char :=
  ((l.dropWhile isPySpace).reverse.dropWhile isPySpace).reverse

/-- Python `str.strip()`. -/
def pyStrip (s : String) : String :=
  String.mk (pyStripList s.data)

/-- Monadic map over `Option`: the left-to-right iteration of a loop whose
body may raise (raising is `none`); Python's exception propagation. -/
def mapOpt {α β : Type} (f : α → Option β) : List α → Option (List β)
  | [] => some []
  | x :: xs =>
    match f x with
    | none => none
    | some y => (mapOpt f xs).map (fun ys => y :: ys)

/-- A single QA candidate answer (`QACandidate.__init__`). Fields that
Python initialises to `None` are `Option`s. -/
structure QACandidate where
  answer_type : String
  score : Int
  probability : Option Int
  answer : Option String
  offset_answer_start : Int
  offset_answer_end : Int
  answer_support : Option String
  offset_answer_support_start : Option Int
  offset_answer_support_end : Option Int
  context : Option String
  offset_context_start : Option Int
  offset_context_end : Option Int
  offset_unit : String
  aggregation_level : String
  n_passages_in_doc : Option Int
  passage_id : Option String
deriving DecidableEq

/-- The constructor `QACandidate.__init__`: the caller supplies the typed
parameters, everything else starts as `None`. -/
def QACandidate.init (answer_type : String) (score : Int)
    (offset_answer_start offset_answer_end : Int)
    (offset_unit aggregation_level : String)
    (probability : Option Int) (n_passages_in_doc : Option Int)
    (passage_id : Option String) : QACandidate :=
  { answer_type := answer_type
    score := score
    probability := probability
    answer := none
    offset_answer_start := offset_answer_start
    offset_answer_end := offset_answer_end
    answer_support := none
    offset_answer_support_start := none
    offset_answer_support_end := none
    context := none
    offset_context_start := none
    offset_context_end := none
    offset_unit := offset_unit
    aggregation_level := aggregation_level
    n_passages_in_doc := n_passages_in_doc
    passage_id := passage_id }

/-- `QACandidate.span_to_string(token_offsets, clear_text)`: `none` models
the failed `assert self.offset_unit == "token"` and an `IndexError` from
indexing `token_offsets`; otherwise the string answer span together with
its start and end character indices. -/
def span_to_string (c : QACandidate) (token_offsets : List Int)
    (clear_text : String) : Option (String × Int × Int) :=
  if c.offset_unit ≠ "token" then none
  else
    let start_t := c.offset_answer_start
    let end_t := c.offset_answer_end
    if start_t = -1 ∧ end_t = -1 then some ("", 0, 0)
    else
      let n_tokens : Int := token_offsets.length
      let end_t' := min (end_t + 1) n_tokens
      match pyIdx token_offsets start_t with
      | none => none
      | some start_ch =>
        let end_ch? : Option Int :=
          if end_t' = n_tokens then some (clear_text.length : Int)
          else pyIdx token_offsets end_t'
        match end_ch? with
        | none => none
        | some end_ch =>
          some (pyStrip (pySlice clear_text start_ch end_ch), start_ch, end_ch)

/-- `QACandidate.add_cls(predicted_class)`: a yes/no classification label
overrides the span answer unless the QA head already said `"no_answer"`. -/
def add_cls (c : QACandidate) (predicted_class : String) : QACandidate :=
  if (predicted_class = "yes" ∨ predicted_class = "no") ∧
      c.answer ≠ some "no_answer" then
    { c with
      answer_support := c.answer
      answer := some predicted_class
      answer_type := predicted_class
      offset_answer_support_start := some c.offset_answer_start
      offset_answer_support_end := some c.offset_answer_end }
  else c

/-- `QACandidate.to_doc_level(start, end)`. -/
def to_doc_level (c : QACandidate) (start_i end_i : Int) : QACandidate :=
  { c with
    offset_answer_start := start_i
    offset_answer_end := end_i
    aggregation_level := "document" }

/-- `QACandidate.add_answer(string)`: sets the answer string; the Boolean is
true exactly when the consistency check fires `logger.error` (the method
itself never raises). -/
def add_answer (c : QACandidate) (string : String) : QACandidate × Bool :=
  if string = "" then
    ({ c with answer := some "no_answer" },
     decide (c.offset_answer_start ≠ -1 ∨ c.offset_answer_end ≠ -1))
  else
    ({ c with answer := some string },
     decide (c.offset_answer_start = -1 ∨ c.offset_answer_end = -1))

/-- `QAPred.create_context(ans_start_ch, ans_end_ch, clear_text)`: the
context window around an answer span; `self` is only consulted for
`context_window_size`, passed here explicitly. -/
def create_context (context_window_size : Int)
    (ans_start_ch ans_end_ch : Int) (clear_text : String) :
    String × Int × Int :=
  if ans_start_ch = 0 ∧ ans_end_ch = 0 then ("", 0, 0)
  else
    let len_text : Int := clear_text.length
    let midpoint := Int.tdiv (ans_end_ch - ans_start_ch) 2 + ans_start_ch
    let half_window := Int.tdiv context_window_size 2
    let context_start_ch := midpoint - half_window
    let context_end_ch := midpoint + half_window
    let overhang_start := max 0 (-context_start_ch)
    let overhang_end := max 0 (context_end_ch - len_text)
    let context_start_ch' := context_start_ch - overhang_end
    let context_start_ch'' := max 0 context_start_ch'
    let context_end_ch' := context_end_ch + overhang_start
    let context_end_ch'' := min len_text context_end_ch'
    (pySlice clear_text context_start_ch'' context_end_ch'',
     context_start_ch'', context_end_ch'')

/-- A JSON-like value, enough to model the dictionaries built by
`QAPred.to_json` / `QAPred.answers_to_json` (object fields keep their
insertion order, as Python dicts do). -/
inductive JValue : Type where
  | jnull : JValue
  | jstr : String → JValue
  | jint : Int → JValue
  | jlist : List JValue → JValue
  | jobj : List (String × JValue) → JValue

/-- A Python value that is either a string or `None`, as JSON. -/
def optStrToJ : Option String → JValue
  | none => JValue.jnull
  | some s => JValue.jstr s

/-- The keys of a JSON object, in order (empty for non-objects). -/
def jKeys : JValue → List String
  | JValue.jobj fields => fields.map Prod.fst
  | _ => []

/-- Look a key up in a JSON object (`none` for non-objects / missing keys). -/
def jField (v : JValue) (k : String) : Option JValue :=
  match v with
  | JValue.jobj fields => fields.lookup k
  | _ => none

/-- A set of QA predictions for a passage or document (`QAPred.__init__`;
the fields inherited from `Pred` are inlined). -/
structure QAPred where
  id : String
  prediction : List QACandidate
  context : String
  question : String
  token_offsets : List Int
  context_window_size : Int
  aggregation_level : String
  no_answer_gap : Int
  n_passages : Int
  ground_truth_answer : Option String
  answer_types : List String

/-- The loop body of `QAPred.answers_to_json`: the flat record emitted for
one candidate (`none` when `span_to_string` raises). -/
def candidateRecord (id : String) (squad : Bool) (token_offsets : List Int)
    (context : String) (context_window_size : Int) (qa_candidate : QACandidate) :
    Option JValue :=
  match span_to_string qa_candidate token_offsets context with
  | none => none
  | some (_, ans_start_ch, ans_end_ch) =>
    let cw := create_context context_window_size ans_start_ch ans_end_ch context
    let string : Option String :=
      if squad ∧ qa_candidate.answer = some "no_answer" then some ""
      else qa_candidate.answer
    some (JValue.jobj
      [("score", JValue.jint qa_candidate.score),
       ("probability", JValue.jnull),
       ("answer", optStrToJ string),
       ("offset_answer_start", JValue.jint ans_start_ch),
       ("offset_answer_end", JValue.jint ans_end_ch),
       ("context", JValue.jstr cw.1),
       ("offset_context_start", JValue.jint cw.2.1),
       ("offset_context_end", JValue.jint cw.2.2),
       ("document_id", JValue.jstr id)])

/-- `QAPred.answers_to_json(id, squad)`: one flat record per candidate, in
the candidates' order. -/
def answers_to_json (p : QAPred) (id : String) (squad : Bool) :
    Option (List JValue) :=
  mapOpt (candidateRecord id squad p.token_offsets p.context p.context_window_size)
    p.prediction

/-- `QAPred.to_json(squad)`: the `{"task": "qa", "predictions": [...]}`
envelope around `answers_to_json`. -/
def to_json (p : QAPred) (squad : Bool) : Option JValue :=
  (answers_to_json p p.id squad).map (fun answers =>
    JValue.jobj
      [("task", JValue.jstr "qa"),
       ("predictions", JValue.jlist
         [JValue.jobj
           [("question", JValue.jstr p.question),
            ("question_id", JValue.jstr p.id),
            ("ground_truth", optStrToJ p.ground_truth_answer),
            ("answers", JValue.jlist answers),
            ("no_ans_gap", JValue.jint p.no_answer_gap)]])])

/-- `QAPred.to_squad_eval()`. -/
def to_squad_eval (p : QAPred) : Option JValue :=
  to_json p true

/-- A text of `n` copies of the letter a, used as concrete input. -/
def aText (n : Nat) : String :=
  String.mk (List.replicate n 'a')

/-- The exact key list of each record emitted by `answers_to_json`. -/
def answerKeys : List String :=
  ["score", "probability", "answer", "offset_answer_start", "offset_answer_end",
   "context", "offset_context_start", "offset_context_end", "document_id"]

lemma mapOpt_length {α β : Type} (f : α → Option β) (l : List α)
    (ys : List β) (h : mapOpt f l = some ys) : ys.length = l.length := by
  induction l generalizing ys with
  | nil => simp [mapOpt] at h; simp [← h]
  | cons x xs ih =>
    simp only [mapOpt] at h
    cases hfx : f x with
    | none => rw [hfx] at h; exact absurd h (by simp)
    | some y =>
      rw [hfx] at h
      cases hrest : mapOpt f xs with
      | none => rw [hrest] at h; exact absurd h (by simp)
      | some zs =>
        rw [hrest] at h
        simp only [Option.map_some', Option.some_inj] at h
        subst h
        simp [ih zs hrest]

lemma mapOpt_get {α β : Type} (f : α → Option β) (l : List α)
    (ys : List β) (h : mapOpt f l = some ys) :
    ∀ i (h1 : i < l.length) (h2 : i < ys.length),
      f (l.get ⟨i, h1⟩) = some (ys.get ⟨i, h2⟩) := by
  induction l generalizing ys with
  | nil => intro i h1; simp at h1
  | cons x xs ih =>
    simp only [mapOpt] at h
    cases hfx : f x with
    | none => rw [hfx] at h; exact absurd h (by simp)
    | some y =>
      rw [hfx] at h
      cases hrest : mapOpt f xs with
      | none => rw [hrest] at h; exact absurd h (by simp)
      | some zs =>
        rw [hrest] at h
        simp only [Option.map_some', Option.some_inj] at h
        subst h
        intro i h1 h2
        cases i with
        | zero => simpa using hfx
        | succ j => exact ih zs hrest j (by simpa using h1) (by simpa using h2)

lemma mapOpt_mem {α β : Type} (f : α → Option β) (l : List α)
    (ys : List β) (h : mapOpt f l = some ys) :
    ∀ r ∈ ys, ∃ x ∈ l, f x = some r := by
  induction l generalizing ys with
  | nil =>
    simp only [mapOpt, Option.some_inj] at h
    intro r hr
    rw [← h] at hr
    simp at hr
  | cons x xs ih =>
    simp only [mapOpt] at h
    cases hfx : f x with
    | none => rw [hfx] at h; exact absurd h (by simp)
    | some y =>
      rw [hfx] at h
      cases hrest : mapOpt f xs with
      | none => rw [hrest] at h; exact absurd h (by simp)
      | some zs =>
        rw [hrest] at h
        simp only [Option.map_some', Option.some_inj] at h
        subst h
        intro r hr
        rcases List.mem_cons.mp hr with hr | hr
        · exact ⟨x, List.mem_cons_self x xs, hr ▸ hfx⟩
        · obtain ⟨x', hx', hfx'⟩ := ih zs hrest r hr
          exact ⟨x', List.mem_cons_of_mem x hx', hfx'⟩

lemma pyIdx_of_nonneg (l : List Int) (i : Int) (h0 : 0 ≤ i)
    (h1 : i < l.length) : pyIdx l i = some (l.getD i.toNat 0) := by
  unfold pyIdx
  rw [if_neg (not_lt.mpr h0), if_pos ⟨h0, h1⟩]

/-- A candidate whose offsets are expressed in characters, not tokens. -/
def charUnitCandidate : QACandidate :=
  QACandidate.init "span" 7 0 0 "char" "passage" none none none

/-- A no-answer candidate carrying the (-1, -1) sentinel. -/
def sentinelCandidate : QACandidate :=
  QACandidate.init "no_answer" 7 (-1) (-1) "token" "passage" none none none

/-- A span candidate whose answer text has been resolved to "Paris". -/
def parisCandidate : QACandidate :=
  { QACandidate.init "span" 1 3 4 "token" "passage" none none none with
    answer := some "Paris" }

/-- A freshly constructed no-answer candidate: sentinel offsets,
`answer_type = "no_answer"`, and the answer text still unset. -/
def unsetNoAnswerCandidate : QACandidate :=
  QACandidate.init "no_answer" 0 (-1) (-1) "token" "passage" none none none

/-- A candidate of kind "span" with sentinel offsets and no answer yet. -/
def spanKindSentinelCandidate : QACandidate :=
  QACandidate.init "span" 0 (-1) (-1) "token" "passage" none none none

/-- C4: `span_to_string` fails (assertion, modelled as `none`) whenever
`offset_unit` is not `"token"`; under that precondition, sentinel offsets
(-1, -1) give `("", 0, 0)` regardless of `token_offsets` and `clear_text`. -/
theorem span_to_string_requires_token_and_sentinel (c : QACandidate)
    (token_offsets : List Int) (clear_text : String) :
    (c.offset_unit ≠ "token" → span_to_string c token_offsets clear_text = none) ∧
    (c.offset_unit = "token" → c.offset_answer_start = -1 →
      c.offset_answer_end = -1 →
      span_to_string c token_offsets clear_text = some ("", 0, 0)) := by
  constructor
  · intro h
    simp [span_to_string, h]
  · intro h1 h2 h3
    simp [span_to_string, h1, h2, h3]

/-- Witness for C4: a char-unit candidate fails, and a token-unit sentinel
candidate yields the empty answer at (0, 0). -/
theorem span_to_string_requires_token_and_sentinel_witness :
    span_to_string charUnitCandidate [5] "xyz" = none ∧
    span_to_string sentinelCandidate [5] "xyz" = some ("", 0, 0) :=
  ⟨(span_to_string_requires_token_and_sentinel charUnitCandidate [5] "xyz").1
      (by decide),
   (span_to_string_requires_token_and_sentinel sentinelCandidate [5] "xyz").2
      rfl rfl rfl⟩

/-- C8: `to_doc_level` overwrites the two answer offsets with the given
values with no bounds check, sets the aggregation level to "document", and
leaves every other field unchanged. -/
theorem to_doc_level_frame (c : QACandidate) (start_i end_i : Int) :
    (to_doc_level c start_i end_i).offset_answer_start = start_i ∧
    (to_doc_level c start_i end_i).offset_answer_end = end_i ∧
    (to_doc_level c start_i end_i).aggregation_level = "document" ∧
    (to_doc_level c start_i end_i).answer = c.answer ∧
    (to_doc_level c start_i end_i).answer_type = c.answer_type ∧
    (to_doc_level c start_i end_i).score = c.score ∧
    (to_doc_level c start_i end_i).probability = c.probability ∧
    (to_doc_level c start_i end_i).answer_support = c.answer_support ∧
    (to_doc_level c start_i end_i).offset_answer_support_start =
      c.offset_answer_support_start ∧
    (to_doc_level c start_i end_i).offset_answer_support_end =
      c.offset_answer_support_end ∧
    (to_doc_level c start_i end_i).context = c.context ∧
    (to_doc_level c start_i end_i).offset_context_start = c.offset_context_start ∧
    (to_doc_level c start_i end_i).offset_context_end = c.offset_context_end ∧
    (to_doc_level c start_i end_i).offset_unit = c.offset_unit ∧
    (to_doc_level c start_i end_i).n_passages_in_doc = c.n_passages_in_doc ∧
    (to_doc_level c start_i end_i).passage_id = c.passage_id :=
  ⟨rfl, rfl, rfl, rfl, rfl, rfl, rfl, rfl, rfl, rfl, rfl, rfl, rfl, rfl, rfl, rfl⟩

/-- C3: a "yes"/"no" classification label overrides the answer (moving the
previous answer and offsets into the support fields and setting both the
answer text and the answer type to the label) exactly when the current
answer text is not "no_answer"; any other label, or a current "no_answer",
leaves the candidate untouched. -/
theorem add_cls_spec (c : QACandidate) (predicted_class : String) :
    ((predicted_class = "yes" ∨ predicted_class = "no") →
      c.answer ≠ some "no_answer" →
      add_cls c predicted_class =
        { c with
          answer_support := c.answer
          answer := some predicted_class
          answer_type := predicted_class
          offset_answer_support_start := some c.offset_answer_start
          offset_answer_support_end := some c.offset_answer_end }) ∧
    (¬(predicted_class = "yes" ∨ predicted_class = "no") →
      add_cls c predicted_class = c) ∧
    (c.answer = some "no_answer" → add_cls c predicted_class = c) := by
  refine ⟨fun h1 h2 => ?_, fun h1 => ?_, fun h2 => ?_⟩
  · unfold add_cls
    rw [if_pos ⟨h1, h2⟩]
  · unfold add_cls
    rw [if_neg (by tauto)]
  · unfold add_cls
    rw [if_neg (by simp [h2])]

/-- Witness for C3: the "Paris"/"yes" scenario — afterwards the answer text
and type are "yes" and the support text is "Paris". -/
theorem add_cls_spec_witness :
    (add_cls parisCandidate "yes").answer = some "yes" ∧
    (add_cls parisCandidate "yes").answer_type = "yes" ∧
    (add_cls parisCandidate "yes").answer_support = some "Paris" := by
  have h := (add_cls_spec parisCandidate "yes").1 (Or.inl rfl) (by decide)
  rw [h]
  exact ⟨rfl, rfl, rfl⟩

/-- C10: the no-answer guard of `add_cls` looks only at the answer text, so
with the answer text still unset (`none`) a "yes" label performs the
override no matter what `answer_type` and the offsets hold. -/
theorem add_cls_overrides_when_answer_unset (c : QACandidate)
    (h : c.answer = none) :
    (add_cls c "yes").answer = some "yes" ∧
    (add_cls c "yes").answer_type = "yes" ∧
    (add_cls c "yes").answer_support = none ∧
    (add_cls c "yes").offset_answer_support_start = some c.offset_answer_start ∧
    (add_cls c "yes").offset_answer_support_end = some c.offset_answer_end := by
  have hne : c.answer ≠ some "no_answer" := by simp [h]
  unfold add_cls
  rw [if_pos ⟨Or.inl rfl, hne⟩]
  exact ⟨rfl, rfl, by simp [h], rfl, rfl⟩

/-- Witness for C10: a candidate with `answer_type = "no_answer"` and the
(-1, -1) sentinel, whose answer text is unset, is still overridden. -/
theorem add_cls_overrides_when_answer_unset_witness :
    (add_cls unsetNoAnswerCandidate "yes").answer = some "yes" ∧
    (add_cls unsetNoAnswerCandidate "yes").answer_type = "yes" ∧
    (add_cls unsetNoAnswerCandidate "yes").answer_support = none ∧
    (add_cls unsetNoAnswerCandidate "yes").offset_answer_support_start =
      some (-1) ∧
    (add_cls unsetNoAnswerCandidate "yes").offset_answer_support_end =
      some (-1) := by
  simpa using add_cls_overrides_when_answer_unset unsetNoAnswerCandidate rfl

/-- Counterexample to C7 as stated: `add_answer ""` does not set the answer
KIND (`answer_type`) to "no_answer" — the kind stays "span"; what is set to
"no_answer" is the answer TEXT. -/
theorem add_answer_kind_cex :
    (add_answer spanKindSentinelCandidate "").1.answer_type = "span" ∧
    (add_answer spanKindSentinelCandidate "").1.answer_type ≠ "no_answer" ∧
    (add_answer spanKindSentinelCandidate "").1.answer = some "no_answer" := by
  decide

/-- C7 amended: `add_answer ""` sets the answer TEXT to "no_answer"
(leaving `answer_type` alone) and logs an error exactly when the offsets are
not both -1; a non-empty string becomes the answer text with an error logged
exactly when an offset is still -1; the function is total (never raises) and
modifies neither the offsets nor the answer type. -/
theorem add_answer_spec (c : QACandidate) (string : String) :
    (string = "" →
      (add_answer c string).1.answer = some "no_answer" ∧
      ((add_answer c string).2 = true ↔
        ¬(c.offset_answer_start = -1 ∧ c.offset_answer_end = -1))) ∧
    (string ≠ "" →
      (add_answer c string).1.answer = some string ∧
      ((add_answer c string).2 = true ↔
        (c.offset_answer_start = -1 ∨ c.offset_answer_end = -1))) ∧
    (add_answer c string).1.offset_answer_start = c.offset_answer_start ∧
    (add_answer c string).1.offset_answer_end = c.offset_answer_end ∧
    (add_answer c string).1.answer_type = c.answer_type := by
  by_cases hs : string = ""
  · refine ⟨fun _ => ⟨?_, ?_⟩, fun h => absurd hs h, ?_, ?_, ?_⟩ <;>
      simp [add_answer, hs] <;> tauto
  · refine ⟨fun h => absurd h hs, fun _ => ⟨?_, ?_⟩, ?_, ?_, ?_⟩ <;>
      simp [add_answer, hs]

/-- Witness for C7: the empty-string case on a concrete candidate. -/
theorem add_answer_spec_witness :
    (add_answer spanKindSentinelCandidate "").1.answer = some "no_answer" :=
  ((add_answer_spec spanKindSentinelCandidate "").1 rfl).1
lemma create_context_width (context_window_size ans_start_ch ans_end_ch : Int)
    (clear_text : String) (h0 : 0 ≤ context_window_size)
    (hL : 2 * Int.tdiv context_window_size 2 ≤ (clear_text.length : Int))
    (hne : ¬(ans_start_ch = 0 ∧ ans_end_ch = 0)) :
    (create_context context_window_size ans_start_ch ans_end_ch clear_text).2.2 -
      (create_context context_window_size ans_start_ch ans_end_ch clear_text).2.1 =
      2 * Int.tdiv context_window_size 2 := by
  unfold create_context
  rw [if_neg hne]
  dsimp only
  generalize hm : Int.tdiv (ans_end_ch - ans_start_ch) 2 + ans_start_ch = m
  rw [Int.tdiv_eq_ediv h0 (by norm_num)] at hL ⊢
  omega

/-- Counterexample to C1 as stated: with the odd window size 21, a
non-degenerate span (5, 7) strictly inside a text of length 30 (which
exceeds the window size) yields a window of width 20, not 21. -/
theorem create_context_odd_window_cex :
    (aText 30).length = 30 ∧
    ((0 : Int) < 5 ∧ (5 : Int) < 7 ∧ (7 : Int) < 30 ∧ (21 : Int) < 30) ∧
    (create_context 21 5 7 (aText 30)).2.2 -
      (create_context 21 5 7 (aText 30)).2.1 = 20 ∧
    ¬((create_context 21 5 7 (aText 30)).2.2 -
      (create_context 21 5 7 (aText 30)).2.1 = 21) := by
  decide

set_option maxRecDepth 10000 in
/-- C1 amended: for any span other than the (0, 0) placeholder in a text
longer than `window_size ≥ 0`, the window width is exactly
`2 * (window_size tdiv 2)` — i.e. `window_size` itself whenever
`window_size` is even, one less when it is odd; in particular
`window(10, 12, text of length 5, 20)` returns the whole text with bounds
(0, 5) and `window(100, 102, text of length 1000, 20)` returns the width-20
window (91, 111) around character 101. -/
theorem create_context_window_width :
    (∀ (context_window_size ans_start_ch ans_end_ch : Int) (clear_text : String),
      0 ≤ context_window_size →
      context_window_size < (clear_text.length : Int) →
      ¬(ans_start_ch = 0 ∧ ans_end_ch = 0) →
      (create_context context_window_size ans_start_ch ans_end_ch clear_text).2.2 -
        (create_context context_window_size ans_start_ch ans_end_ch clear_text).2.1 =
        2 * Int.tdiv context_window_size 2) ∧
    create_context 20 10 12 (aText 5) = (aText 5, 0, 5) ∧
    (create_context 20 100 102 (aText 1000)).2 = (91, 111) := by
  refine ⟨fun cws s e t h0 hlen hne => ?_, ?_, ?_⟩
  · refine create_context_width cws s e t h0 ?_ hne
    have h1 : 2 * Int.tdiv cws 2 ≤ cws := by
      rw [Int.tdiv_eq_ediv h0 (by norm_num)]
      omega
    omega
  · decide
  · decide

set_option maxRecDepth 10000 in
/-- Witness for C1: the claim's own long-text example, window size 20 around
the span (100, 102) in a 1000-character text. -/
theorem create_context_window_width_witness :
    (create_context 20 100 102 (aText 1000)).2.2 -
      (create_context 20 100 102 (aText 1000)).2.1 = 2 * Int.tdiv 20 2 :=
  (create_context_window_width).1 20 100 102 (aText 1000) (by decide)
    (by decide) (by decide)

lemma span_to_string_of_valid (c : QACandidate) (toks : List Int)
    (text : String) (hunit : c.offset_unit = "token")
    (h0 : 0 ≤ c.offset_answer_start)
    (h1 : c.offset_answer_start < (toks.length : Int))
    (h2 : c.offset_answer_start ≤ c.offset_answer_end) :
    span_to_string c toks text =
      some (pyStrip (pySlice text (toks.getD c.offset_answer_start.toNat 0)
              (if (toks.length : Int) ≤ c.offset_answer_end + 1
               then (text.length : Int)
               else toks.getD (c.offset_answer_end + 1).toNat 0)),
            toks.getD c.offset_answer_start.toNat 0,
            if (toks.length : Int) ≤ c.offset_answer_end + 1
            then (text.length : Int)
            else toks.getD (c.offset_answer_end + 1).toNat 0) := by
  have hsent : ¬(c.offset_answer_start = -1 ∧ c.offset_answer_end = -1) := by
    omega
  unfold span_to_string
  rw [if_neg (by simp [hunit])]
  dsimp only
  rw [if_neg hsent]
  rw [pyIdx_of_nonneg toks c.offset_answer_start h0 h1]
  dsimp only
  by_cases hend : (toks.length : Int) ≤ c.offset_answer_end + 1
  · rw [min_eq_right hend, if_pos rfl, if_pos hend]
  · have hlt : c.offset_answer_end + 1 < (toks.length : Int) := lt_of_not_ge hend
    rw [min_eq_left (le_of_lt hlt), if_neg (by omega),
      pyIdx_of_nonneg toks (c.offset_answer_end + 1) (by omega) hlt,
      if_neg hend]

/-- A span candidate covering exactly the first token. -/
def wordSpaceCandidate : QACandidate :=
  QACandidate.init "span" 0 0 0 "token" "passage" none none none

/-- A span candidate covering exactly the second of three tokens. -/
def midTokenCandidate : QACandidate :=
  QACandidate.init "span" 0 1 1 "token" "passage" none none none

/-- A span candidate sitting on the last token (index 5 of 6). -/
def finalTokenCandidate : QACandidate :=
  QACandidate.init "span" 0 5 5 "token" "passage" none none none

/-- Counterexample to C2 as stated: the first token of "a b" with
`token_offsets = [0, 2]` spans characters [0, 2), but `span_to_string`
strips the trailing blank and returns "a", of length 1, not
`token_offsets[1] - token_offsets[0] = 2`. -/
theorem span_to_string_strip_cex :
    span_to_string wordSpaceCandidate [0, 2] "a b" = some ("a", 0, 2) ∧
    (("a" : String).length : Int) ≠
      [(0 : Int), 2].getD 1 0 - [(0 : Int), 2].getD 0 0 := by
  decide

/-- C2 amended: for a valid token span, `span_to_string` returns character
bounds (a, b) with `a = token_offsets[start_t]` and, when
`end_t + 1 < n_tokens`, `b = token_offsets[end_t + 1]`, so that
`b - a = token_offsets[end_t + 1] - token_offsets[start_t]`; when
`end_t + 1 = n_tokens`, `b` is the text length. The returned string is the
slice `clear_text[a:b]` with surrounding whitespace stripped — its length
can therefore be smaller than `b - a`. -/
theorem span_to_string_bounds (c : QACandidate) (toks : List Int)
    (text : String) (hunit : c.offset_unit = "token")
    (h0 : 0 ≤ c.offset_answer_start)
    (h2 : c.offset_answer_start ≤ c.offset_answer_end)
    (h1 : c.offset_answer_end < (toks.length : Int)) :
    ∃ a b, span_to_string c toks text = some (pyStrip (pySlice text a b), a, b) ∧
      a = toks.getD c.offset_answer_start.toNat 0 ∧
      ((c.offset_answer_end + 1 < (toks.length : Int) ∧
        b = toks.getD (c.offset_answer_end + 1).toNat 0 ∧
        b - a = toks.getD (c.offset_answer_end + 1).toNat 0 -
          toks.getD c.offset_answer_start.toNat 0) ∨
       (c.offset_answer_end + 1 = (toks.length : Int) ∧
        b = (text.length : Int))) := by
  have hcore := span_to_string_of_valid c toks text hunit h0 (by omega) h2
  by_cases hend : (toks.length : Int) ≤ c.offset_answer_end + 1
  · rw [if_pos hend] at hcore
    refine ⟨_, _, hcore, rfl, Or.inr ⟨by omega, rfl⟩⟩
  · rw [if_neg hend] at hcore
    refine ⟨_, _, hcore, rfl, Or.inl ⟨by omega, rfl, rfl⟩⟩

/-- Witness for C2: token 1 of `[0, 2, 4]` in "abcdef" gives the bounds
(2, 4), whose difference is `token_offsets[2] - token_offsets[1]`. -/
theorem span_to_string_bounds_witness :
    ∃ a b, span_to_string midTokenCandidate [0, 2, 4] "abcdef" =
      some (pyStrip (pySlice "abcdef" a b), a, b) ∧ a = 2 ∧ b = 4 := by
  obtain ⟨a, b, h, ha, hrest⟩ :=
    span_to_string_bounds midTokenCandidate [0, 2, 4] "abcdef" rfl
      (by decide) (by decide) (by decide)
  rcases hrest with ⟨-, hb, -⟩ | ⟨hc, -⟩
  · exact ⟨a, b, h, ha, hb⟩
  · exact absurd hc (by decide)

/-- C5: for a token-unit candidate with a valid start and
`start_t ≤ end_t`, `span_to_string` advances the end boundary by one token,
clamps it to the token count, takes the start character from
`token_offsets[start_t]`, and takes the end character from
`token_offsets[end_t + 1]` unless the advanced boundary reaches the token
count, in which case it is the length of `clear_text`. -/
theorem span_to_string_clamps (c : QACandidate) (toks : List Int)
    (text : String) (hunit : c.offset_unit = "token")
    (h0 : 0 ≤ c.offset_answer_start)
    (h1 : c.offset_answer_start < (toks.length : Int))
    (h2 : c.offset_answer_start ≤ c.offset_answer_end) :
    ∃ s, span_to_string c toks text =
      some (s, toks.getD c.offset_answer_start.toNat 0,
        if (toks.length : Int) ≤ c.offset_answer_end + 1
        then (text.length : Int)
        else toks.getD (c.offset_answer_end + 1).toNat 0) :=
  ⟨_, span_to_string_of_valid c toks text hunit h0 h1 h2⟩

/-- Witness for C5: the claim's scenario — candidate (5, 5) over
`token_offsets = [0, 4, 8, 12, 16, 20]` and a 22-character text: the
advanced boundary 6 is clamped to the 6 tokens and the span runs from
character 20 to the text end 22. -/
theorem span_to_string_clamps_witness :
    ∃ s, span_to_string finalTokenCandidate [0, 4, 8, 12, 16, 20] (aText 22) =
      some (s, 20, 22) := by
  obtain ⟨s, hs⟩ :=
    span_to_string_clamps finalTokenCandidate [0, 4, 8, 12, 16, 20] (aText 22)
      rfl (by decide) (by decide) (by decide)
  exact ⟨s, hs⟩

lemma candidateRecord_fields (id : String) (squad : Bool) (toks : List Int)
    (ctx : String) (cws : Int) (c : QACandidate) (r : JValue)
    (h : candidateRecord id squad toks ctx cws c = some r) :
    jKeys r = answerKeys ∧
    jField r "probability" = some JValue.jnull ∧
    (squad = true → c.answer = some "no_answer" →
      jField r "answer" = some (JValue.jstr "")) := by
  unfold candidateRecord at h
  cases hspan : span_to_string c toks ctx with
  | none => rw [hspan] at h; exact absurd h (by simp)
  | some v =>
    obtain ⟨s, a, b⟩ := v
    rw [hspan] at h
    dsimp only at h
    injection h with h
    subst h
    refine ⟨by simp +decide [jKeys, answerKeys], by simp +decide [jField, List.lookup], ?_⟩
    intro hsq hans
    simp +decide [jField, List.lookup, hsq, hans, optStrToJ]

/-- A no-answer candidate with a stored probability, as serialization input. -/
def sampleCandidate : QACandidate :=
  { QACandidate.init "no_answer" 7 (-1) (-1) "token" "passage" (some 5)
      none none with
    answer := some "no_answer" }

/-- A one-candidate aggregate for exercising the serializers. -/
def samplePred : QAPred :=
  { id := "d1"
    prediction := [sampleCandidate]
    context := ""
    question := "q"
    token_offsets := []
    context_window_size := 10
    aggregation_level := "doc"
    no_answer_gap := 3
    n_passages := 1
    ground_truth_answer := none
    answer_types := [] }

/-- The record `answers_to_json` emits for `sampleCandidate` under the
squad flag. -/
def sampleRecord : JValue :=
  JValue.jobj
    [("score", JValue.jint 7), ("probability", JValue.jnull),
     ("answer", JValue.jstr ""), ("offset_answer_start", JValue.jint 0),
     ("offset_answer_end", JValue.jint 0), ("context", JValue.jstr ""),
     ("offset_context_start", JValue.jint 0),
     ("offset_context_end", JValue.jint 0),
     ("document_id", JValue.jstr "d1")]

/-- C6: `answers_to_json` emits exactly one flat record per candidate, in
input order, each carrying exactly the keys `answerKeys`; under the squad
flag an answer equal to "no_answer" is emitted as the empty string; and
`to_json` nests the records with the question, id, ground-truth answer and
no-answer gap under the `{"task": "qa", "predictions": [...]}` envelope. -/
theorem answers_to_json_structure (p : QAPred) (id : String) (squad : Bool)
    (recs : List JValue) (h : answers_to_json p id squad = some recs) :
    recs.length = p.prediction.length ∧
    (∀ i (h1 : i < p.prediction.length) (h2 : i < recs.length),
      candidateRecord id squad p.token_offsets p.context p.context_window_size
          (p.prediction.get ⟨i, h1⟩) = some (recs.get ⟨i, h2⟩) ∧
      jKeys (recs.get ⟨i, h2⟩) = answerKeys ∧
      (squad = true → (p.prediction.get ⟨i, h1⟩).answer = some "no_answer" →
        jField (recs.get ⟨i, h2⟩) "answer" = some (JValue.jstr ""))) ∧
    (id = p.id →
      to_json p squad = some (JValue.jobj
        [("task", JValue.jstr "qa"),
         ("predictions", JValue.jlist
           [JValue.jobj
             [("question", JValue.jstr p.question),
              ("question_id", JValue.jstr p.id),
              ("ground_truth", optStrToJ p.ground_truth_answer),
              ("answers", JValue.jlist recs),
              ("no_ans_gap", JValue.jint p.no_answer_gap)]])])) := by
  refine ⟨mapOpt_length _ _ _ h, fun i h1 h2 => ?_, fun hid => ?_⟩
  · have hg := mapOpt_get _ _ _ h i h1 h2
    have hf := candidateRecord_fields _ _ _ _ _ _ _ hg
    exact ⟨hg, hf.1, hf.2.2⟩
  · subst hid
    unfold to_json
    rw [h]
    rfl

/-- Witness for C6: the one-candidate aggregate serializes to exactly one
record, with the expected key set. -/
theorem answers_to_json_structure_witness :
    ([sampleRecord] : List JValue).length = samplePred.prediction.length ∧
    jKeys sampleRecord = answerKeys := by
  have h : answers_to_json samplePred "d1" true = some [sampleRecord] := rfl
  have hs := answers_to_json_structure samplePred "d1" true [sampleRecord] h
  exact ⟨hs.1, (hs.2.1 0 (by decide) (by decide)).2.1⟩

/-- C9: every record emitted by `answers_to_json` carries
`probability = null`, whatever probability the candidate stores. -/
theorem answers_to_json_probability_null (p : QAPred) (id : String)
    (squad : Bool) (recs : List JValue)
    (h : answers_to_json p id squad = some recs) :
    ∀ r ∈ recs, jField r "probability" = some JValue.jnull := by
  intro r hr
  obtain ⟨c, hc, hcr⟩ := mapOpt_mem _ _ _ h r hr
  exact (candidateRecord_fields _ _ _ _ _ _ _ hcr).2.1

/-- Witness for C9: the candidate stores `probability = 5`, yet its record
says null. -/
theorem answers_to_json_probability_null_witness :
    sampleCandidate.probability = some 5 ∧
    jField sampleRecord "probability" = some JValue.jnull := by
  have h : answers_to_json samplePred "d1" true = some [sampleRecord] := rfl
  exact ⟨rfl, answers_to_json_probability_null samplePred "d1" true
    [sampleRecord] h sampleRecord (by simp)⟩
